import Mathlib

/-!
Shallow embedding of the Session Ledger state logic of
`src/frontend/app/dashboard/page.tsx` (Prepare-Up), together with proofs of
the behavioural properties claimed for it.

Conventions of the embedding:
* TypeScript `string` is `String`, `number` is `Int` (timestamps, lengths) or
  `Nat` (file sizes, which the browser guarantees non-negative).
* An optional / possibly-`undefined` field is `Option _`; a field typed
  `T | null` is also `Option _`.  A patch field is `Option _` where `none`
  means the key is absent (for the fields re-coalesced with `??` after the
  spread, `none` also covers an explicit `null`, since `??` treats the two
  alike).
* JavaScript truthiness on strings (`s ||`, `!!s`, `s ?`) is modelled
  explicitly: the empty string is falsy.
* `crypto.randomUUID()` and `Date.now()` are modelled as explicit parameters
  (fresh-id and `now` arguments) of the transition functions.
-/

namespace PrepareUp

/-- `a || b` for a possibly-absent string `a` (absent and `""` are falsy). -/
def jsOrS (o : Option String) (d : String) : String :=
  match o with
  | some s => if s = "" then d else s
  | none => d

/-- `!!o` for a nullable string: truthy iff present and non-empty. -/
def jsTruthyS (o : Option String) : Bool :=
  match o with
  | some s => s != ""
  | none => false

/-- `a || b` for nullable strings, returning the second operand unchanged
when the first is falsy (JS `||` semantics). -/
def jsOrOpt (a b : Option String) : Option String :=
  if jsTruthyS a then a else b

inductive OutputType
  | podcast
  | study_guide
  | narrative
  | flash_card
deriving DecidableEq, Repr

inductive ChatRole
  | user
  | ai
deriving DecidableEq, Repr

/-- `UploadedFile` from the source (`textLen` is the per-file extracted
text length). -/
structure UploadedFile where
  id : String
  name : String
  status : String
  textLen : Int
deriving DecidableEq, Repr

/-- `ChatMessage`; `loading := false` models an absent `loading` flag. -/
structure ChatMessage where
  id : String
  role : ChatRole
  title : Option String := none
  meta : Option String := none
  text : String
  loading : Bool := false
deriving DecidableEq, Repr

/-- `ChatSession`, the Session Ledger's unit of record. -/
structure ChatSession where
  id : String
  title : String
  updatedAt : Int
  backendSessionId : Option String
  uploaded : List UploadedFile
  combinedTextLen : Int
  selectedOutput : Option OutputType
  messages : List ChatMessage
deriving DecidableEq, Repr

/-- `Partial ChatSession`: each field is present (`some`) or absent
(`none`).  For `backendSessionId` and `selectedOutput`, `none` also models
an explicit `null`, which `??` coalesces identically to `undefined`. -/
structure SessionPatch where
  id : Option String := none
  title : Option String := none
  updatedAt : Option Int := none
  backendSessionId : Option String := none
  uploaded : Option (List UploadedFile) := none
  combinedTextLen : Option Int := none
  selectedOutput : Option OutputType := none
  messages : Option (List ChatMessage) := none
deriving DecidableEq, Repr

/-- The view-state values `upsertActiveSession` closes over and uses as
fallbacks (`uploaded`, `sessionId`, `messages`, `combinedTextLen`,
`selectedOutput`). -/
structure ViewSnapshot where
  uploaded : List UploadedFile := []
  sessionId : Option String := none
  messages : List ChatMessage := []
  combinedTextLen : Int := 0
  selectedOutput : Option OutputType := none
deriving DecidableEq, Repr

/-- The ledger: the `chatSessions` array plus the tracked active id
(`activeChatIdRef`). -/
structure LedgerState where
  sessions : List ChatSession
  activeId : Option String
deriving DecidableEq, Repr

/-- `const hasCurrent = !!currentId && prev.some((s) => s.id === currentId)`. -/
def hasCurrentActive (ls : LedgerState) : Bool :=
  match ls.activeId with
  | none => false
  | some cid => cid != "" && ls.sessions.any (fun s => s.id == cid)

/-- The "real content" test of the creation branch: the patch merged with
the view-state fallbacks has at least one uploaded file, a truthy backend
session id, or at least one message. -/
def hasRealContent (vs : ViewSnapshot) (patch : SessionPatch) : Bool :=
  let nextUploaded := patch.uploaded.getD vs.uploaded
  let nextBackendSid := patch.backendSessionId.orElse (fun _ => vs.sessionId)
  let nextMessages := patch.messages.getD vs.messages
  (!nextUploaded.isEmpty || jsTruthyS nextBackendSid) || !nextMessages.isEmpty

/-- The record synthesized by the creation branch of `upsertActiveSession`. -/
def createSession (vs : ViewSnapshot) (patch : SessionPatch) (now : Int)
    (freshId : String) : ChatSession :=
  let nextUploaded := patch.uploaded.getD vs.uploaded
  let nextBackendSid := patch.backendSessionId.orElse (fun _ => vs.sessionId)
  let nextMessages := patch.messages.getD vs.messages
  { id := freshId
    title := jsOrS patch.title
      (match nextUploaded.head? with
       | some f => if f.name = "" then "New chat" else f.name
       | none => "New chat")
    updatedAt := now
    backendSessionId := nextBackendSid
    uploaded := nextUploaded
    combinedTextLen := patch.combinedTextLen.getD vs.combinedTextLen
    selectedOutput := patch.selectedOutput.orElse (fun _ => vs.selectedOutput)
    messages := nextMessages }

/-- The shallow merge `{...s, ...patch, updatedAt: now, ...}` of the patch
branch: the spread writes `id` and `title` when the patch carries them; the
remaining fields are re-coalesced with `??` after the spread, and
`updatedAt` is stamped to `now`. -/
def mergePatch (patch : SessionPatch) (now : Int) (s : ChatSession) :
    ChatSession :=
  { id := patch.id.getD s.id
    title := patch.title.getD s.title
    updatedAt := now
    backendSessionId := patch.backendSessionId.orElse
      (fun _ => s.backendSessionId)
    uploaded := patch.uploaded.getD s.uploaded
    combinedTextLen := patch.combinedTextLen.getD s.combinedTextLen
    selectedOutput := patch.selectedOutput.orElse (fun _ => s.selectedOutput)
    messages := patch.messages.getD s.messages }

/-- `upsertActiveSession(patch)`.  `vs` is the closed-over view state,
`now` is `Date.now()`, `freshId` is the `crypto.randomUUID()` that would be
consumed by the creation branch. -/
def upsertActiveSession (vs : ViewSnapshot) (patch : SessionPatch)
    (now : Int) (freshId : String) (ls : LedgerState) : LedgerState :=
  if hasCurrentActive ls then
    { sessions := ls.sessions.map (fun s =>
        if s.id = ls.activeId.getD "" then mergePatch patch now s else s)
      activeId := ls.activeId }
  else if hasRealContent vs patch then
    { sessions := createSession vs patch now freshId :: ls.sessions
      activeId := some freshId }
  else ls

inductive ViewKind
  | upload
  | chat
deriving DecidableEq, Repr

inductive SidebarKey
  | flash_cards
  | podcast
  | mock_test
  | study_guide
deriving DecidableEq, Repr

/-- Metadata of a browser `File` object as used by the dashboard. -/
structure FileMeta where
  name : String
  size : Nat
  lastModified : Int
deriving DecidableEq, Repr

/-- `LocalFile`: a selected file paired with a generated id. -/
structure LocalFile where
  id : String
  file : FileMeta
deriving DecidableEq, Repr

/-- The dashboard component state touched by the ledger operations. -/
structure DashboardState where
  sessions : List ChatSession := []
  activeChatId : Option String := none
  view : ViewKind := .upload
  files : List LocalFile := []
  uploaded : List UploadedFile := []
  combinedTextLen : Int := 0
  sessionId : Option String := none
  messages : List ChatMessage := []
  chatInput : String := ""
  selectedOutput : Option OutputType := none
  sidebarActive : Option SidebarKey := none
  recentQuery : String := ""
  recentVisible : Nat := 12
deriving DecidableEq, Repr

/-- The view-state snapshot `upsertActiveSession` closes over. -/
def DashboardState.viewSnapshot (st : DashboardState) : ViewSnapshot :=
  { uploaded := st.uploaded
    sessionId := st.sessionId
    messages := st.messages
    combinedTextLen := st.combinedTextLen
    selectedOutput := st.selectedOutput }

/-- `upsertActiveSession` run against the full dashboard state (view-state
fallbacks come from `st` itself). -/
def upsertOnState (patch : SessionPatch) (now : Int) (freshId : String)
    (st : DashboardState) : DashboardState :=
  let ls := upsertActiveSession st.viewSnapshot patch now freshId
    { sessions := st.sessions, activeId := st.activeChatId }
  { st with sessions := ls.sessions, activeChatId := ls.activeId }

/-- `startNewChat`: clear the active pointer and reset all transient view
state; the ledger itself is not touched. -/
def startNewChat (st : DashboardState) : DashboardState :=
  { st with
    activeChatId := none
    view := .upload
    files := []
    uploaded := []
    combinedTextLen := 0
    sessionId := none
    messages := []
    chatInput := ""
    selectedOutput := none
    sidebarActive := none
    recentQuery := ""
    recentVisible := 12 }

/-- The sidebar key displayed for a session's selected output (the nested
ternary in `openChatThread`). -/
def sidebarFor (o : Option OutputType) : Option SidebarKey :=
  if o = some .flash_card then some .flash_cards
  else if o = some .podcast then some .podcast
  else if o = some .study_guide then some .study_guide
  else none

/-- `openChatThread(id)`: look the id up in the ledger; if absent, return
unchanged; if found, make it active and populate the view state from it. -/
def openChatThread (id : String) (st : DashboardState) : DashboardState :=
  match st.sessions.find? (fun s => s.id == id) with
  | none => st
  | some s =>
      { st with
        activeChatId := some s.id
        view := .chat
        uploaded := s.uploaded
        combinedTextLen := s.combinedTextLen
        sessionId := s.backendSessionId
        selectedOutput := s.selectedOutput
        sidebarActive := sidebarFor s.selectedOutput
        messages := s.messages }

/-- `isAllowed(file)`: only files of positive size are accepted. -/
def isAllowed (f : FileMeta) : Bool :=
  decide (0 < f.size)

/-- The dedup key `` `${name}:${size}:${lastModified}` ``. -/
def fileKey (f : FileMeta) : String :=
  f.name ++ ":" ++ toString f.size ++ ":" ++ toString f.lastModified

/-- `addFiles(incoming)`: filter out empty files, drop those whose key
already occurs in the current list, append the rest in order (each with a
generated id, modelled by `gen`). -/
def addFiles (gen : Nat → String) (files : List LocalFile)
    (incoming : List FileMeta) : List LocalFile :=
  let arr := incoming.filter isAllowed
  let existing := files.map (fun x => fileKey x.file)
  let next := arr.filter (fun f => !(existing.contains (fileKey f)))
  files ++ next.enum.map (fun p => { id := gen p.1, file := p.2 })

/-!  Upload-response normalization (`uploadToBackend`). -/

/-- One entry of `data.files` in an upload response; every field may be
absent (`Option`), and a length field counts only when it is a number. -/
structure UploadRespFile where
  name : Option String := none
  filename : Option String := none
  status : Option String := none
  text_len : Option Int := none
  textLen : Option Int := none
  text : Option String := none
deriving DecidableEq, Repr

/-- An `/api/upload` response body: both historical shapes. -/
structure UploadResp where
  session_id : Option String := none
  files : Option (List UploadRespFile) := none
  combined_text : Option String := none
  combined_len : Option Int := none
  combinedLen : Option Int := none
  preview : Option String := none
  preview_len : Option Int := none
deriving DecidableEq, Repr

/-- Per-file normalization: `name || filename || "unknown"`,
`status || "extracted"`, and the length preference chain
`text_len` / `textLen` / `text.length` / `0`. -/
def normalizeRespFile (fid : String) (f : UploadRespFile) : UploadedFile :=
  { id := fid
    name := jsOrS f.name (jsOrS f.filename "unknown")
    status := jsOrS f.status "extracted"
    textLen :=
      match f.text_len with
      | some n => n
      | none =>
        match f.textLen with
        | some n => n
        | none =>
          match f.text with
          | some t => (t.length : Int)
          | none => 0 }

/-- `(data.files || []).map(...)`, ids supplied by `gen`. -/
def normalizedFiles (gen : Nat → String) (data : UploadResp) :
    List UploadedFile :=
  (data.files.getD []).enum.map (fun p => normalizeRespFile (gen p.1) p.2)

/-- The combined-length preference chain of `uploadToBackend`:
`combined_len` / `combinedLen` / `combined_text.length` / `preview_len` /
`preview.length` / `0`. -/
def combinedLenOf (data : UploadResp) : Int :=
  match data.combined_len with
  | some n => n
  | none =>
    match data.combinedLen with
    | some n => n
    | none =>
      match data.combined_text with
      | some t => (t.length : Int)
      | none =>
        match data.preview_len with
        | some n => n
        | none =>
          match data.preview with
          | some p => (p.length : Int)
          | none => 0

/-- The two seed messages installed on a first upload (view = upload).
`n` is the number of normalized files; the source interpolates
`normalized.length || 0`, which equals the length itself. -/
def initialChatMessages (mid1 mid2 : String) (n : Nat) : List ChatMessage :=
  [ { id := mid1
      role := .user
      title := some "Hello"
      text := "I uploaded " ++ toString n ++ " file(s). Can you help me?" }
  , { id := mid2
      role := .ai
      title := some "Welcome"
      meta := some ("Sources: " ++ toString n ++ " file(s) • 1 channel")
      text := "Pick an output above to generate first. After that, use the chat bar to refine it." } ]

/-- The success path of `uploadToBackend` taken while `view = "upload"`
(the first upload): record the session id when truthy, replace the
uploaded summaries and combined length, switch to chat, install the seed
messages, upsert once with all of it, and reset the selected output.
Closure reads (`sessionId`, the upsert fallbacks) use the entry state
`st`, as React state setters do not change the captured bindings. -/
def uploadSuccessFirst (gen : Nat → String) (mid1 mid2 freshId : String)
    (data : UploadResp) (now : Int) (st : DashboardState) : DashboardState :=
  let sid := data.session_id
  let normalized := normalizedFiles gen data
  let combinedLen := combinedLenOf data
  let st1 := if jsTruthyS sid then { st with sessionId := sid } else st
  let msgs := initialChatMessages mid1 mid2 normalized.length
  let st2 := { st1 with
    uploaded := normalized
    combinedTextLen := combinedLen
    view := .chat
    messages := msgs }
  let patch : SessionPatch :=
    { backendSessionId := jsOrOpt sid st.sessionId
      uploaded := some normalized
      combinedTextLen := some combinedLen
      messages := some msgs
      title := some (match normalized.head? with
        | some f => if f.name = "" then "New chat" else f.name
        | none => "New chat") }
  let ls := upsertActiveSession st.viewSnapshot patch now freshId
    { sessions := st.sessions, activeId := st.activeChatId }
  { st2 with
    sessions := ls.sessions
    activeChatId := ls.activeId
    selectedOutput := none }

/-!  Recency list (`threadRecents`). -/

/-- The relative-time bucket label (`toRelativeSub`); `nowTs` is the
hydration-safe clock value, `none` before the first client tick. -/
def toRelativeSub (nowTs : Option Int) (ts : Int) : String :=
  match nowTs with
  | none => ""
  | some now =>
    let diffMin := Int.fdiv (now - ts) 60000
    if diffMin < 2 then "Just now"
    else if diffMin < 60 then toString diffMin ++ " min ago"
    else
      let diffHr := Int.fdiv diffMin 60
      if diffHr < 24 then toString diffHr ++ " hr ago"
      else
        let diffDay := Int.fdiv diffHr 24
        if diffDay = 1 then "Yesterday"
        else if diffDay < 14 then toString diffDay ++ " days ago"
        else "Older"

/-- Stable insertion of a session into a list sorted by `updatedAt`
descending: the new element goes before the first element it is not
strictly older than (so earlier list elements win ties). -/
def insertSession (x : ChatSession) : List ChatSession → List ChatSession
  | [] => [x]
  | y :: l =>
      if y.updatedAt ≤ x.updatedAt then x :: y :: l
      else y :: insertSession x l

/-- `[...chatSessions].sort((a, b) => b.updatedAt - a.updatedAt)`:
JavaScript's `sort` is stable, embedded here as a stable insertion sort
by `updatedAt` descending. -/
def sortSessions : List ChatSession → List ChatSession
  | [] => []
  | x :: l => insertSession x (sortSessions l)

/-- One entry of the recents sidebar. -/
structure RecentThread where
  id : String
  title : String
  sub : String
deriving DecidableEq, Repr

/-- `threadRecents`: the ledger sorted by recency, mapped to sidebar
entries. -/
def threadRecents (nowTs : Option Int) (sessions : List ChatSession) :
    List RecentThread :=
  (sortSessions sessions).map (fun s =>
    { id := s.id, title := s.title, sub := toRelativeSub nowTs s.updatedAt })

/-!  Chat request construction (`onSendChat`). -/

/-- `String.prototype.trim()`: strip leading and trailing whitespace. -/
def jsTrim (s : String) : String :=
  String.mk
    (((s.data.dropWhile Char.isWhitespace).reverse.dropWhile
        Char.isWhitespace).reverse)

structure HistoryItem where
  role : ChatRole
  content : String
deriving DecidableEq, Repr

/-- The JSON body posted to `/api/chat`. -/
structure ChatRequestBody where
  session_id : String
  message : String
  history : List HistoryItem
deriving DecidableEq, Repr

/-- `[m.title, m.meta, m.text].filter(Boolean).join("\n")`: keep the parts
that are present and truthy (non-empty), joined by newlines. -/
def messageContent (m : ChatMessage) : String :=
  String.intercalate "\x0a"
    (([m.title, m.meta, some m.text].filterMap id).filter (fun s => s != ""))

/-- `.slice(-12)`: the last (up to) 12 elements. -/
def lastTwelve (l : List ChatMessage) : List ChatMessage :=
  l.drop (l.length - 12)

/-- The `history` field: non-pending messages, last 12 kept, mapped to
role/content. -/
def chatHistory (messages : List ChatMessage) : List HistoryItem :=
  (lastTwelve (messages.filter (fun m => !m.loading))).map (fun m =>
    { role := m.role, content := messageContent m })

/-- `onSendChat` up to and including the request body it posts: `none`
when a guard bails out (empty trimmed input, a generate/chat already in
flight, or no truthy backend session id). -/
def onSendChatRequest (chatInput : String) (generating : Bool)
    (sessionId : Option String) (messages : List ChatMessage) :
    Option ChatRequestBody :=
  let text := jsTrim chatInput
  if text = "" || generating then none
  else if !jsTruthyS sessionId then none
  else
    some { session_id := sessionId.getD ""
           message := text
           history := chatHistory messages }

/-!  Spec-side formulations, used to compare the embedded code against the
specification's wording. -/

/-- The claimed history content: the concatenation of the *present* parts
(title, meta, text) joined by newlines, with no emptiness filtering. -/
def claimMessageContent (m : ChatMessage) : String :=
  String.intercalate "\n" ([m.title, m.meta, some m.text].filterMap id)

/-- Spec-side history content (amended wording): the present *non-empty*
parts, joined by newlines. -/
def specMessageContent (m : ChatMessage) : String :=
  String.intercalate "\n"
    (((match m.title with | some t => [t] | none => []) ++
      (match m.meta with | some t => [t] | none => []) ++
      [m.text]).filter (fun s => s != ""))

/-- Spec-side chat request body: trimmed message, history built from the
non-pending transcript messages, keeping the last 12 (expressed here by
reversing, taking 12, and reversing back). -/
def specChatBody (sid : String) (input : String)
    (messages : List ChatMessage) : ChatRequestBody :=
  { session_id := sid
    message := jsTrim input
    history :=
      (((messages.filter (fun m => m.loading == false)).reverse.take 12).reverse).map
        (fun m => { role := m.role, content := specMessageContent m }) }

/-!  Helper lemmas. -/

theorem upsert_noop_of_no_content (vs : ViewSnapshot) (patch : SessionPatch)
    (now : Int) (fid : String) (ls : LedgerState)
    (h1 : hasCurrentActive ls = false) (h2 : hasRealContent vs patch = false) :
    upsertActiveSession vs patch now fid ls = ls := by
  simp [upsertActiveSession, h1, h2]

theorem upsert_foldl_noop
    (calls : List (ViewSnapshot × SessionPatch × Int × String)) :
    ∀ ls : LedgerState, hasCurrentActive ls = false →
      (∀ c ∈ calls, hasRealContent c.1 c.2.1 = false) →
      calls.foldl
        (fun acc c => upsertActiveSession c.1 c.2.1 c.2.2.1 c.2.2.2 acc) ls
        = ls := by
  induction calls with
  | nil => intro ls _ _; rfl
  | cons c rest ih =>
      intro ls h1 h2
      rw [List.foldl_cons,
        upsert_noop_of_no_content c.1 c.2.1 c.2.2.1 c.2.2.2 ls h1
          (h2 c (by simp))]
      exact ih ls h1 (fun d hd => h2 d (by simp [hd]))

/-- **C1.**  For every sequence of `upsert` calls whose patches, merged
with the view-state fallbacks, carry no uploaded files, no truthy backend
session id, and no messages, and with no session active (the tracked id
matches no record), the ledger is returned unchanged by every call; in
particular, starting from the empty ledger it stays empty and no session
is ever created. -/
theorem claim_C1_no_content_upserts_leave_ledger_unchanged :
    (∀ (calls : List (ViewSnapshot × SessionPatch × Int × String))
       (ls : LedgerState), hasCurrentActive ls = false →
      (∀ c ∈ calls, hasRealContent c.1 c.2.1 = false) →
      calls.foldl
        (fun acc c => upsertActiveSession c.1 c.2.1 c.2.2.1 c.2.2.2 acc) ls
        = ls) ∧
    (∀ calls : List (ViewSnapshot × SessionPatch × Int × String),
      (∀ c ∈ calls, hasRealContent c.1 c.2.1 = false) →
      calls.foldl
        (fun acc c => upsertActiveSession c.1 c.2.1 c.2.2.1 c.2.2.2 acc)
        { sessions := [], activeId := none }
        = { sessions := [], activeId := none }) :=
  ⟨fun calls ls h1 h2 => upsert_foldl_noop calls ls h1 h2,
   fun calls h => upsert_foldl_noop calls { sessions := [], activeId := none } rfl h⟩

/-- Witness for C1 at a concrete one-call sequence. -/
theorem claim_C1_witness :
    ((∀ c ∈ ([({}, {}, 0, "n1")] :
        List (ViewSnapshot × SessionPatch × Int × String)),
        hasRealContent c.1 c.2.1 = false) ∧
      hasCurrentActive { sessions := [], activeId := none } = false) ∧
    ([({}, {}, 0, "n1")] :
        List (ViewSnapshot × SessionPatch × Int × String)).foldl
      (fun acc c => upsertActiveSession c.1 c.2.1 c.2.2.1 c.2.2.2 acc)
      { sessions := [], activeId := none }
      = { sessions := [], activeId := none } :=
  ⟨⟨by decide, by decide⟩,
    claim_C1_no_content_upserts_leave_ledger_unchanged.1 _ _ (by decide)
      (by decide)⟩

/-- **C2 (amended).**  When no session is active (or the tracked id is
stale) and the merged content is real, exactly one new session is created
and prepended, the pre-existing sessions are unchanged, it becomes active,
its `updatedAt` is `now`, and its title is the patch title *if supplied
and non-empty*, else the first uploaded file's name *if non-empty*, else
"New chat". -/
theorem claim_C2_creation_branch (vs : ViewSnapshot) (patch : SessionPatch)
    (now : Int) (fid : String) (ls : LedgerState)
    (h1 : hasCurrentActive ls = false) (h2 : hasRealContent vs patch = true) :
    ∃ created : ChatSession,
      (upsertActiveSession vs patch now fid ls).sessions
        = created :: ls.sessions ∧
      (upsertActiveSession vs patch now fid ls).activeId = some fid ∧
      created.id = fid ∧
      created.updatedAt = now ∧
      (∀ t, patch.title = some t → t ≠ "" → created.title = t) ∧
      ((patch.title = none ∨ patch.title = some "") →
        ∀ f rest, patch.uploaded.getD vs.uploaded = f :: rest →
          f.name ≠ "" → created.title = f.name) ∧
      ((patch.title = none ∨ patch.title = some "") →
        (patch.uploaded.getD vs.uploaded = [] ∨
          ∃ f rest, patch.uploaded.getD vs.uploaded = f :: rest ∧
            f.name = "") →
        created.title = "New chat") := by
  refine ⟨createSession vs patch now fid, ?_, ?_, rfl, rfl, ?_, ?_, ?_⟩
  · simp [upsertActiveSession, h1, h2]
  · simp [upsertActiveSession, h1, h2]
  · intro t ht hne
    simp [createSession, jsOrS, ht, hne]
  · intro ht f rest hu hf
    rcases ht with h | h <;> simp [createSession, jsOrS, h, hu, hf]
  · intro ht hc
    rcases hc with h0 | ⟨f, rest, hu, hf⟩
    · rcases ht with h | h <;> simp [createSession, jsOrS, h, h0]
    · rcases ht with h | h <;> simp [createSession, jsOrS, h, hu, hf]

/-- Counterexample to C2 as stated: a supplied but empty patch title is
falsy under `||`, so the created session is titled after the first
uploaded file rather than carrying the supplied title `""`. -/
theorem claim_C2_counterexample :
    (let patch : SessionPatch :=
      { title := some ""
        uploaded := some
          [{ id := "u1", name := "a.pdf", status := "extracted"
             textLen := 0 }] }
     patch.title = some "" ∧
     (upsertActiveSession {} patch 5 "n1"
        { sessions := [], activeId := none }).sessions.map
        (fun s => s.title) = ["a.pdf"] ∧
     ("a.pdf" : String) ≠ "") := by
  decide

/-- Witness for C2 at a concrete creating call. -/
theorem claim_C2_witness :
    (hasCurrentActive { sessions := [], activeId := none } = false ∧
      hasRealContent {}
        ({ messages := some [{ id := "m1", role := .user, text := "hi" }] } :
          SessionPatch) = true) ∧
    ∃ created : ChatSession,
      (upsertActiveSession {}
        { messages := some [{ id := "m1", role := .user, text := "hi" }] }
        7 "n1" { sessions := [], activeId := none }).sessions
        = created :: ([] : List ChatSession) ∧
      (upsertActiveSession {}
        { messages := some [{ id := "m1", role := .user, text := "hi" }] }
        7 "n1" { sessions := [], activeId := none }).activeId = some "n1" ∧
      created.id = "n1" ∧
      created.updatedAt = 7 ∧
      (∀ t, ({ messages := some [{ id := "m1", role := .user, text := "hi" }] } :
          SessionPatch).title = some t → t ≠ "" → created.title = t) ∧
      ((({ messages := some [{ id := "m1", role := .user, text := "hi" }] } :
          SessionPatch).title = none ∨
        ({ messages := some [{ id := "m1", role := .user, text := "hi" }] } :
          SessionPatch).title = some "") →
        ∀ f rest, (({ messages := some [{ id := "m1", role := .user, text := "hi" }] } :
          SessionPatch).uploaded.getD ({} : ViewSnapshot).uploaded) = f :: rest →
          f.name ≠ "" → created.title = f.name) ∧
      ((({ messages := some [{ id := "m1", role := .user, text := "hi" }] } :
          SessionPatch).title = none ∨
        ({ messages := some [{ id := "m1", role := .user, text := "hi" }] } :
          SessionPatch).title = some "") →
        ((({ messages := some [{ id := "m1", role := .user, text := "hi" }] } :
          SessionPatch).uploaded.getD ({} : ViewSnapshot).uploaded) = [] ∨
          ∃ f rest, (({ messages := some [{ id := "m1", role := .user, text := "hi" }] } :
            SessionPatch).uploaded.getD ({} : ViewSnapshot).uploaded) = f :: rest ∧
            f.name = "") →
        created.title = "New chat") :=
  ⟨⟨by decide, by decide⟩,
    claim_C2_creation_branch {} _ 7 "n1" { sessions := [], activeId := none }
      (by decide) (by decide)⟩

/-- **C4 (amended).**  For every patch that does not supply an `id`
field, an upsert on an existing active session preserves every session's
id positionally (so no session is lost or duplicated) and leaves the
active pointer unchanged. -/
theorem claim_C4_ids_immutable_without_id_patch (vs : ViewSnapshot)
    (patch : SessionPatch) (now : Int) (fid : String) (ls : LedgerState)
    (h1 : hasCurrentActive ls = true) (h2 : patch.id = none) :
    (upsertActiveSession vs patch now fid ls).activeId = ls.activeId ∧
    (upsertActiveSession vs patch now fid ls).sessions.map (fun s => s.id)
      = ls.sessions.map (fun s => s.id) ∧
    (upsertActiveSession vs patch now fid ls).sessions.length
      = ls.sessions.length := by
  refine ⟨?_, ?_, ?_⟩
  · simp [upsertActiveSession, h1]
  · simp only [upsertActiveSession, h1, if_true, List.map_map]
    refine List.map_congr_left ?_
    intro s _
    by_cases h : s.id = ls.activeId.getD ""
    · simp [h, mergePatch, h2]
    · simp [h]
  · simp [upsertActiveSession, h1]

/-- Counterexample to C4 as stated: a malformed patch that carries an `id`
is merged as given (the spread copies it), so the active session's id
changes. -/
theorem claim_C4_counterexample :
    (upsertActiveSession {} { id := some "b" } 1 "f1"
      { sessions := [{ id := "a", title := "T", updatedAt := 0
                       backendSessionId := none, uploaded := []
                       combinedTextLen := 0, selectedOutput := none
                       messages := [] }]
        activeId := some "a" }).sessions.map (fun s => s.id) = ["b"] ∧
    (["b"] : List String) ≠ ["a"] := by
  decide

/-- Witness for C4 at a concrete id-free patch. -/
theorem claim_C4_witness :
    (hasCurrentActive
        { sessions := [{ id := "a", title := "T", updatedAt := 0
                         backendSessionId := none, uploaded := []
                         combinedTextLen := 0, selectedOutput := none
                         messages := [] }]
          activeId := some "a" } = true ∧
      ({ title := some "T2" } : SessionPatch).id = none) ∧
    (upsertActiveSession {} { title := some "T2" } 1 "f1"
      { sessions := [{ id := "a", title := "T", updatedAt := 0
                       backendSessionId := none, uploaded := []
                       combinedTextLen := 0, selectedOutput := none
                       messages := [] }]
        activeId := some "a" }).sessions.map (fun s => s.id) = ["a"] :=
  ⟨⟨by decide, by decide⟩, by
    have h := claim_C4_ids_immutable_without_id_patch {} { title := some "T2" }
      1 "f1"
      { sessions := [{ id := "a", title := "T", updatedAt := 0
                       backendSessionId := none, uploaded := []
                       combinedTextLen := 0, selectedOutput := none
                       messages := [] }]
        activeId := some "a" } (by decide) (by decide)
    rw [h.2.1]
    decide⟩

theorem upsert_patch_branch_sessions (vs : ViewSnapshot) (m : List ChatMessage)
    (t : Int) (fid cid : String) (ls : LedgerState)
    (h1 : ls.activeId = some cid) (h2 : cid ≠ "")
    (h3 : ls.sessions.any (fun s => s.id == cid) = true) :
    (upsertActiveSession vs { messages := some m } t fid ls).sessions
      = ls.sessions.map (fun s =>
          if s.id = cid then { s with messages := m, updatedAt := t } else s) ∧
    (upsertActiveSession vs { messages := some m } t fid ls).activeId
      = some cid := by
  have hbc : hasCurrentActive ls = true := by
    simp only [hasCurrentActive, h1, h3, Bool.and_true, bne_iff_ne, ne_eq,
      decide_eq_true_eq]
    exact h2
  constructor
  · simp only [upsertActiveSession, hbc, if_true, h1, Option.getD_some]
    rfl
  · simp [upsertActiveSession, hbc, h1]

/-- **C3.**  Two sequential message-only upserts on the same existing
active session each apply a shallow merge to that session only (absent
fields keep their prior values, other sessions are untouched), refresh its
`updatedAt` to the call's strictly later `now`, and preserve the
`backendSessionId` present after the first call when the second omits it. -/
theorem claim_C3_two_message_upserts (vs : ViewSnapshot)
    (m1 m2 : List ChatMessage) (t1 t2 : Int) (id1 id2 cid : String)
    (ls : LedgerState)
    (h1 : ls.activeId = some cid) (h2 : cid ≠ "")
    (h3 : ls.sessions.any (fun s => s.id == cid) = true)
    (h4 : t1 < t2) :
    let ls1 := upsertActiveSession vs { messages := some m1 } t1 id1 ls
    let ls2 := upsertActiveSession vs { messages := some m2 } t2 id2 ls1
    ls1.activeId = some cid ∧ ls2.activeId = some cid ∧
    ls1.sessions = ls.sessions.map (fun s =>
      if s.id = cid then { s with messages := m1, updatedAt := t1 } else s) ∧
    ls2.sessions = ls.sessions.map (fun s =>
      if s.id = cid then { s with messages := m2, updatedAt := t2 } else s) ∧
    ls2.sessions.map (fun s => s.backendSessionId)
      = ls.sessions.map (fun s => s.backendSessionId) ∧
    (∀ s2 ∈ ls2.sessions, s2.id = cid → s2.updatedAt = t2 ∧
      ∀ s1 ∈ ls1.sessions, s1.id = cid → s1.updatedAt < s2.updatedAt) := by
  intro ls1 ls2
  obtain ⟨hmap1, hact1⟩ :=
    upsert_patch_branch_sessions vs m1 t1 id1 cid ls h1 h2 h3
  have hany1 : ls1.sessions.any (fun s => s.id == cid) = true := by
    rw [show ls1.sessions = _ from hmap1, List.any_map, List.any_eq_true]
    rw [List.any_eq_true] at h3
    obtain ⟨s, hs, hsid⟩ := h3
    have hsid' : s.id = cid := by simpa using hsid
    exact ⟨s, hs, by simp [Function.comp, hsid']⟩
  obtain ⟨hmap2, hact2⟩ :=
    upsert_patch_branch_sessions vs m2 t2 id2 cid ls1 hact1 h2 hany1
  have hcomp : ls2.sessions = ls.sessions.map (fun s =>
      if s.id = cid then { s with messages := m2, updatedAt := t2 } else s) := by
    rw [show ls2.sessions = _ from hmap2, show ls1.sessions = _ from hmap1,
      List.map_map]
    refine List.map_congr_left fun s _ => ?_
    by_cases h : s.id = cid <;> simp [Function.comp, h]
  refine ⟨hact1, hact2, hmap1, hcomp, ?_, ?_⟩
  · rw [hcomp, List.map_map]
    refine List.map_congr_left fun s _ => ?_
    by_cases h : s.id = cid <;> simp [Function.comp, h]
  · intro s2 hs2 hid2
    rw [hcomp] at hs2
    obtain ⟨s, hs, hfs⟩ := List.mem_map.1 hs2
    by_cases h : s.id = cid
    · rw [if_pos h] at hfs
      constructor
      · rw [← hfs]
      · intro s1 hs1 hid1
        rw [hmap1] at hs1
        obtain ⟨s', hs', hfs'⟩ := List.mem_map.1 hs1
        by_cases h' : s'.id = cid
        · rw [if_pos h'] at hfs'
          rw [← hfs', ← hfs]
          exact h4
        · rw [if_neg h'] at hfs'
          exact absurd (hfs' ▸ hid1) h'
    · rw [if_neg h] at hfs
      exact absurd (hfs ▸ hid2) h

/-- Witness for C3 at a concrete ledger and two concrete calls. -/
theorem claim_C3_witness :
    (({ sessions := [{ id := "a", title := "T", updatedAt := 0
                       backendSessionId := some "sid0", uploaded := []
                       combinedTextLen := 0, selectedOutput := none
                       messages := [] }]
        activeId := some "a" } : LedgerState).activeId = some "a" ∧
      ("a" : String) ≠ "" ∧
      ({ sessions := [{ id := "a", title := "T", updatedAt := 0
                        backendSessionId := some "sid0", uploaded := []
                        combinedTextLen := 0, selectedOutput := none
                        messages := [] }]
         activeId := some "a" } : LedgerState).sessions.any
        (fun s => s.id == "a") = true ∧
      (1 : Int) < 2) ∧
    (upsertActiveSession {}
      { messages := some [{ id := "x1", role := .user, text := "hello" }] }
      2 "i2"
      (upsertActiveSession {}
        { messages := some [{ id := "x1", role := .user, text := "hello" }] }
        1 "i1"
        { sessions := [{ id := "a", title := "T", updatedAt := 0
                         backendSessionId := some "sid0", uploaded := []
                         combinedTextLen := 0, selectedOutput := none
                         messages := [] }]
          activeId := some "a" })).activeId = some "a" :=
  ⟨⟨by decide, by decide, by decide, by decide⟩,
   (claim_C3_two_message_upserts {}
      [{ id := "x1", role := .user, text := "hello" }]
      [{ id := "x1", role := .user, text := "hello" }] 1 2 "i1" "i2" "a"
      { sessions := [{ id := "a", title := "T", updatedAt := 0
                       backendSessionId := some "sid0", uploaded := []
                       combinedTextLen := 0, selectedOutput := none
                       messages := [] }]
        activeId := some "a" }
      (by decide) (by decide) (by decide) (by decide)).2.1⟩

/-- **C5 (amended).**  If an upload response carries none of
`combined_len`, `combinedLen`, `combined_text`, or `preview_len` but has a
`preview` string, the normalized combined length is `preview.length`; and
the scenario response `{session_id: "s1", files: [{name: "a.pdf", status:
"extracted"}]}` with no length fields yields a session with combined
length 0 and exactly one file entry `a.pdf`/`extracted` with per-file
length 0. -/
theorem claim_C5_upload_normalization :
    (∀ data : UploadResp, data.combined_len = none → data.combinedLen = none →
      data.combined_text = none → data.preview_len = none →
      ∀ p, data.preview = some p → combinedLenOf data = (p.length : Int)) ∧
    (uploadSuccessFirst (fun n => "file" ++ toString n) "m1" "m2" "cs1"
      { session_id := some "s1"
        files := some [{ name := some "a.pdf", status := some "extracted" }] }
      100 {}).sessions.map
      (fun s => (s.combinedTextLen,
        s.uploaded.map (fun u => (u.name, u.status, u.textLen))))
      = [(0, [("a.pdf", "extracted", 0)])] := by
  constructor
  · intro data h1 h2 h3 h4 p hp
    simp [combinedLenOf, h1, h2, h3, h4, hp]
  · decide

/-- Counterexample to C5 as stated: the source prefers `preview_len`
(absent from the claim's exclusion list) over `preview.length`. -/
theorem claim_C5_counterexample :
    (({ preview := some "ab", preview_len := some 7 } : UploadResp).combined_len
        = none ∧
      ({ preview := some "ab", preview_len := some 7 } : UploadResp).combinedLen
        = none ∧
      ({ preview := some "ab", preview_len := some 7 } : UploadResp).combined_text
        = none ∧
      ({ preview := some "ab", preview_len := some 7 } : UploadResp).preview
        = some "ab") ∧
    combinedLenOf { preview := some "ab", preview_len := some 7 }
      ≠ (("ab" : String).length : Int) := by
  decide

/-- Witness for C5 at a concrete preview-only response. -/
theorem claim_C5_witness :
    (({ preview := some "ab" } : UploadResp).combined_len = none ∧
      ({ preview := some "ab" } : UploadResp).combinedLen = none ∧
      ({ preview := some "ab" } : UploadResp).combined_text = none ∧
      ({ preview := some "ab" } : UploadResp).preview_len = none ∧
      ({ preview := some "ab" } : UploadResp).preview = some "ab") ∧
    combinedLenOf { preview := some "ab" } = (("ab" : String).length : Int) :=
  ⟨⟨rfl, rfl, rfl, rfl, rfl⟩,
    claim_C5_upload_normalization.1 { preview := some "ab" } rfl rfl rfl rfl
      "ab" rfl⟩

/-- **C8.**  `openThread(id)` with an id not in the ledger is a complete
no-op (state returned unchanged, no error); with an id that is found, that
session becomes active and its fields populate the view state; the ledger
itself is never modified. -/
theorem claim_C8_openThread_noop_or_populate (id : String)
    (st : DashboardState) :
    ((∀ s ∈ st.sessions, s.id ≠ id) → openChatThread id st = st) ∧
    (∀ s, st.sessions.find? (fun x => x.id == id) = some s →
      openChatThread id st = { st with
        activeChatId := some s.id
        view := .chat
        uploaded := s.uploaded
        combinedTextLen := s.combinedTextLen
        sessionId := s.backendSessionId
        selectedOutput := s.selectedOutput
        sidebarActive := sidebarFor s.selectedOutput
        messages := s.messages }) ∧
    (openChatThread id st).sessions = st.sessions := by
  refine ⟨?_, ?_, ?_⟩
  · intro h
    have hf : st.sessions.find? (fun x => x.id == id) = none := by
      rw [List.find?_eq_none]
      intro x hx
      simpa using h x hx
    simp [openChatThread, hf]
  · intro s hs
    simp [openChatThread, hs]
  · unfold openChatThread
    cases h : st.sessions.find? (fun x => x.id == id) <;> rfl

/-- Witness for C8: a miss leaves a concrete state untouched. -/
theorem claim_C8_witness :
    (∀ s ∈ ({ sessions := [{ id := "a", title := "T", updatedAt := 0
                             backendSessionId := none, uploaded := []
                             combinedTextLen := 0, selectedOutput := none
                             messages := [] }] } :
        DashboardState).sessions, s.id ≠ "zzz") ∧
    openChatThread "zzz"
      { sessions := [{ id := "a", title := "T", updatedAt := 0
                       backendSessionId := none, uploaded := []
                       combinedTextLen := 0, selectedOutput := none
                       messages := [] }] }
      = { sessions := [{ id := "a", title := "T", updatedAt := 0
                         backendSessionId := none, uploaded := []
                         combinedTextLen := 0, selectedOutput := none
                         messages := [] }] } :=
  ⟨by decide,
    (claim_C8_openThread_noop_or_populate "zzz"
      { sessions := [{ id := "a", title := "T", updatedAt := 0
                       backendSessionId := none, uploaded := []
                       combinedTextLen := 0, selectedOutput := none
                       messages := [] }] }).1 (by decide)⟩

/-- **C9.**  `startNew()` clears the active pointer and resets all
transient view state while leaving every ledger entry unchanged; a
following upload-carrying upsert creates a second, distinct session
(fresh id) prepended before the untouched old entries. -/
theorem claim_C9_startNew_then_upload_upsert (st : DashboardState) :
    (startNewChat st).sessions = st.sessions ∧
    (startNewChat st).activeChatId = none ∧
    (startNewChat st).files = [] ∧
    (startNewChat st).uploaded = [] ∧
    (startNewChat st).combinedTextLen = 0 ∧
    (startNewChat st).sessionId = none ∧
    (startNewChat st).messages = [] ∧
    (startNewChat st).chatInput = "" ∧
    (startNewChat st).selectedOutput = none ∧
    (∀ (patch : SessionPatch) (now : Int) (fid : String)
       (f : UploadedFile) (rest : List UploadedFile),
      patch.uploaded = some (f :: rest) →
      fid ∉ st.sessions.map (fun s => s.id) →
      ∃ created : ChatSession,
        (upsertOnState patch now fid (startNewChat st)).sessions
          = created :: st.sessions ∧
        (upsertOnState patch now fid (startNewChat st)).activeChatId
          = some fid ∧
        created.id = fid ∧
        ∀ s ∈ st.sessions, created.id ≠ s.id) := by
  refine ⟨rfl, rfl, rfl, rfl, rfl, rfl, rfl, rfl, rfl, ?_⟩
  intro patch now fid f rest hu hfid
  have hrc : hasRealContent
      { uploaded := [], sessionId := none, messages := []
        combinedTextLen := 0, selectedOutput := none } patch = true := by
    simp [hasRealContent, hu]
  refine ⟨createSession (startNewChat st).viewSnapshot patch now fid,
    ?_, ?_, rfl, ?_⟩
  · simp [upsertOnState, upsertActiveSession, hasCurrentActive, startNewChat,
      hrc, DashboardState.viewSnapshot]
  · simp [upsertOnState, upsertActiveSession, hasCurrentActive, startNewChat,
      hrc, DashboardState.viewSnapshot]
  · intro s hs heq
    exact hfid (List.mem_map.2 ⟨s, hs, heq.symm⟩)

/-- Witness for C9: a concrete ledger with one session, reset, then an
upload-carrying upsert. -/
theorem claim_C9_witness :
    (({ uploaded := some [{ id := "u1", name := "notes.pdf"
                            status := "extracted", textLen := 3 }] } :
        SessionPatch).uploaded
      = some ({ id := "u1", name := "notes.pdf", status := "extracted"
                textLen := 3 } :: []) ∧
      "b" ∉ (({ sessions := [{ id := "a", title := "T", updatedAt := 0
                               backendSessionId := none, uploaded := []
                               combinedTextLen := 0, selectedOutput := none
                               messages := [] }] } :
        DashboardState)).sessions.map (fun s => s.id)) ∧
    ∃ created : ChatSession,
      (upsertOnState
        { uploaded := some [{ id := "u1", name := "notes.pdf"
                              status := "extracted", textLen := 3 }] }
        9 "b"
        (startNewChat
          { sessions := [{ id := "a", title := "T", updatedAt := 0
                           backendSessionId := none, uploaded := []
                           combinedTextLen := 0, selectedOutput := none
                           messages := [] }] })).sessions
        = created :: ({ sessions := [{ id := "a", title := "T", updatedAt := 0
                                       backendSessionId := none, uploaded := []
                                       combinedTextLen := 0
                                       selectedOutput := none
                                       messages := [] }] } :
            DashboardState).sessions ∧
      (upsertOnState
        { uploaded := some [{ id := "u1", name := "notes.pdf"
                              status := "extracted", textLen := 3 }] }
        9 "b"
        (startNewChat
          { sessions := [{ id := "a", title := "T", updatedAt := 0
                           backendSessionId := none, uploaded := []
                           combinedTextLen := 0, selectedOutput := none
                           messages := [] }] })).activeChatId = some "b" ∧
      created.id = "b" ∧
      ∀ s ∈ ({ sessions := [{ id := "a", title := "T", updatedAt := 0
                              backendSessionId := none, uploaded := []
                              combinedTextLen := 0, selectedOutput := none
                              messages := [] }] } :
          DashboardState).sessions, created.id ≠ s.id :=
  ⟨⟨by decide, by decide⟩,
    (claim_C9_startNew_then_upload_upsert
      { sessions := [{ id := "a", title := "T", updatedAt := 0
                       backendSessionId := none, uploaded := []
                       combinedTextLen := 0, selectedOutput := none
                       messages := [] }] }).2.2.2.2.2.2.2.2.2
      { uploaded := some [{ id := "u1", name := "notes.pdf"
                            status := "extracted", textLen := 3 }] }
      9 "b"
      { id := "u1", name := "notes.pdf", status := "extracted", textLen := 3 }
      [] (by decide) (by decide)⟩

theorem mem_insertSession {x a : ChatSession} :
    ∀ {l : List ChatSession}, a ∈ insertSession x l ↔ a = x ∨ a ∈ l := by
  intro l
  induction l with
  | nil => simp [insertSession]
  | cons y t ih =>
      simp only [insertSession]
      by_cases h : y.updatedAt ≤ x.updatedAt
      · rw [if_pos h]
        simp
      · rw [if_neg h]
        simp only [List.mem_cons, ih]
        tauto

theorem mem_sortSessions {a : ChatSession} :
    ∀ {l : List ChatSession}, a ∈ sortSessions l ↔ a ∈ l := by
  intro l
  induction l with
  | nil => simp [sortSessions]
  | cons x t ih =>
      show a ∈ insertSession x (sortSessions t) ↔ _
      rw [mem_insertSession, ih]
      simp

theorem pairwise_insertSession {x : ChatSession} {l : List ChatSession}
    (h : l.Pairwise (fun a b => b.updatedAt ≤ a.updatedAt)) :
    (insertSession x l).Pairwise (fun a b => b.updatedAt ≤ a.updatedAt) := by
  induction l with
  | nil => simp [insertSession]
  | cons y t ih =>
      rw [List.pairwise_cons] at h
      obtain ⟨hy, ht⟩ := h
      simp only [insertSession]
      by_cases hc : y.updatedAt ≤ x.updatedAt
      · rw [if_pos hc]
        refine List.pairwise_cons.2 ⟨?_, List.pairwise_cons.2 ⟨hy, ht⟩⟩
        intro z hz
        rcases List.mem_cons.1 hz with rfl | hz
        · exact hc
        · exact le_trans (hy z hz) hc
      · rw [if_neg hc]
        refine List.pairwise_cons.2 ⟨?_, ih ht⟩
        intro z hz
        rcases mem_insertSession.1 hz with rfl | hz
        · exact le_of_not_le hc
        · exact hy z hz

theorem sortSessions_pairwise (l : List ChatSession) :
    (sortSessions l).Pairwise (fun a b => b.updatedAt ≤ a.updatedAt) := by
  induction l with
  | nil => simp [sortSessions]
  | cons x t ih => exact pairwise_insertSession ih

theorem filter_insertSession (k : Int) (x : ChatSession)
    (l : List ChatSession) :
    (insertSession x l).filter (fun s => s.updatedAt == k)
      = (x :: l).filter (fun s => s.updatedAt == k) := by
  induction l with
  | nil => rfl
  | cons y t ih =>
      simp only [insertSession]
      by_cases hc : y.updatedAt ≤ x.updatedAt
      · rw [if_pos hc]
      · rw [if_neg hc]
        have hlt : x.updatedAt < y.updatedAt := not_le.1 hc
        cases hx : (x.updatedAt == k) with
        | true =>
            have hy : (y.updatedAt == k) = false := by
              rw [beq_iff_eq] at hx
              rw [beq_eq_false_iff_ne]
              intro h
              rw [h, hx] at hlt
              exact lt_irrefl _ hlt
            simp [List.filter_cons, hx, hy, ih]
        | false =>
            cases hy : (y.updatedAt == k) <;>
              simp [List.filter_cons, hx, hy, ih]

theorem filter_sortSessions (k : Int) (l : List ChatSession) :
    (sortSessions l).filter (fun s => s.updatedAt == k)
      = l.filter (fun s => s.updatedAt == k) := by
  induction l with
  | nil => rfl
  | cons x t ih =>
      show (insertSession x (sortSessions t)).filter _ = _
      rw [filter_insertSession]
      simp [List.filter_cons, ih]

theorem head_sortSessions_of_strict_max {x : ChatSession} :
    ∀ {l : List ChatSession}, x ∈ l →
      (∀ y ∈ l, y ≠ x → y.updatedAt < x.updatedAt) →
      (sortSessions l).head? = some x := by
  intro l
  induction l with
  | nil => intro h; exact absurd h (List.not_mem_nil x)
  | cons z t ih =>
      intro hmem hmax
      by_cases hz : z = x
      · subst hz
        show (insertSession z (sortSessions t)).head? = some z
        cases hst : sortSessions t with
        | nil => simp [insertSession]
        | cons h rest =>
            have hh : h ∈ t := by
              have hmem' : h ∈ sortSessions t := by
                rw [hst]; exact List.mem_cons_self h rest
              exact mem_sortSessions.1 hmem'
            have hle : h.updatedAt ≤ z.updatedAt := by
              by_cases hhx : h = z
              · rw [hhx]
              · exact le_of_lt (hmax h (List.mem_cons_of_mem _ hh) hhx)
            simp [insertSession, hle]
      · have hxt : x ∈ t := by
          rcases List.mem_cons.1 hmem with h | h
          · exact absurd h.symm hz
          · exact h
        have hlt : z.updatedAt < x.updatedAt :=
          hmax z (List.mem_cons_self _ _) hz
        have ihh := ih hxt
          (fun y hy hne => hmax y (List.mem_cons_of_mem _ hy) hne)
        show (insertSession z (sortSessions t)).head? = some x
        cases hst : sortSessions t with
        | nil => rw [hst] at ihh; simp at ihh
        | cons h rest =>
            rw [hst] at ihh
            simp only [List.head?_cons, Option.some.injEq] at ihh
            subst ihh
            have hnle : ¬ (h.updatedAt ≤ z.updatedAt) := not_le.2 hlt
            simp [insertSession, hnle]

/-- **C6.**  The recency derivation is sorted by `updatedAt` descending;
it is stable (elements with equal `updatedAt` keep their ledger order, as
witnessed by filtering commuting with the sort); and after an upsert that
patches the unique existing active session at a time strictly later than
every other session's stamp, that session's entry is at the front of the
recents list. -/
theorem claim_C6_recents_sorted_stable_patched_front :
    (∀ l : List ChatSession,
      (sortSessions l).Pairwise (fun a b => b.updatedAt ≤ a.updatedAt)) ∧
    (∀ (l : List ChatSession) (k : Int),
      (sortSessions l).filter (fun s => s.updatedAt == k)
        = l.filter (fun s => s.updatedAt == k)) ∧
    (∀ (vs : ViewSnapshot) (patch : SessionPatch) (now : Int)
       (fid cid : String) (ls : LedgerState) (s : ChatSession)
       (nt : Option Int),
      ls.activeId = some cid → cid ≠ "" →
      ls.sessions.filter (fun x => x.id == cid) = [s] →
      (∀ y ∈ ls.sessions, y.id ≠ cid → y.updatedAt < now) →
      (threadRecents nt
          (upsertActiveSession vs patch now fid ls).sessions).head?
        = some { id := (mergePatch patch now s).id
                 title := (mergePatch patch now s).title
                 sub := toRelativeSub nt now }) := by
  refine ⟨sortSessions_pairwise, fun l k => filter_sortSessions k l, ?_⟩
  intro vs patch now fid cid ls s nt h1 h2 h3 h4
  have hsf : s ∈ ls.sessions.filter (fun x => x.id == cid) := by
    rw [h3]; exact List.mem_singleton.2 rfl
  have hsmem : s ∈ ls.sessions := List.mem_of_mem_filter hsf
  have hsid : s.id = cid := by
    have := List.of_mem_filter hsf
    simpa using this
  have hbc : hasCurrentActive ls = true := by
    simp only [hasCurrentActive, h1, Bool.and_eq_true, bne_iff_ne, ne_eq,
      decide_eq_true_eq, List.any_eq_true]
    exact ⟨h2, s, hsmem, by simp [hsid]⟩
  have hsess : (upsertActiveSession vs patch now fid ls).sessions
      = ls.sessions.map (fun x =>
          if x.id = cid then mergePatch patch now x else x) := by
    simp [upsertActiveSession, hbc, h1]
  have hmem' : mergePatch patch now s
      ∈ (upsertActiveSession vs patch now fid ls).sessions := by
    rw [hsess]
    exact List.mem_map.2 ⟨s, hsmem, by simp [hsid]⟩
  have hmax : ∀ y ∈ (upsertActiveSession vs patch now fid ls).sessions,
      y ≠ mergePatch patch now s →
      y.updatedAt < (mergePatch patch now s).updatedAt := by
    rw [hsess]
    intro y hy hne
    obtain ⟨x, hx, hfx⟩ := List.mem_map.1 hy
    by_cases hxc : x.id = cid
    · have hxf : x ∈ ls.sessions.filter (fun z => z.id == cid) :=
        List.mem_filter.2 ⟨hx, by simp [hxc]⟩
      rw [h3] at hxf
      have hxs : x = s := by simpa using hxf
      rw [if_pos hxc, hxs] at hfx
      exact absurd hfx.symm hne
    · rw [if_neg hxc] at hfx
      rw [← hfx]
      exact h4 x hx hxc
  have hhead := head_sortSessions_of_strict_max hmem' hmax
  unfold threadRecents
  rw [List.head?_map, hhead]
  rfl

/-- Witness for C6 at a concrete two-session ledger patched at a strictly
later time. -/
theorem claim_C6_witness :
    (({ sessions := [{ id := "a", title := "TA", updatedAt := 5
                       backendSessionId := none, uploaded := []
                       combinedTextLen := 0, selectedOutput := none
                       messages := [] },
                     { id := "b", title := "TB", updatedAt := 3
                       backendSessionId := none, uploaded := []
                       combinedTextLen := 0, selectedOutput := none
                       messages := [] }]
        activeId := some "b" } : LedgerState).activeId = some "b" ∧
      ("b" : String) ≠ "" ∧
      ({ sessions := [{ id := "a", title := "TA", updatedAt := 5
                        backendSessionId := none, uploaded := []
                        combinedTextLen := 0, selectedOutput := none
                        messages := [] },
                      { id := "b", title := "TB", updatedAt := 3
                        backendSessionId := none, uploaded := []
                        combinedTextLen := 0, selectedOutput := none
                        messages := [] }]
         activeId := some "b" } : LedgerState).sessions.filter
        (fun x => x.id == "b")
        = [{ id := "b", title := "TB", updatedAt := 3
             backendSessionId := none, uploaded := []
             combinedTextLen := 0, selectedOutput := none
             messages := [] }] ∧
      (∀ y ∈ ({ sessions := [{ id := "a", title := "TA", updatedAt := 5
                               backendSessionId := none, uploaded := []
                               combinedTextLen := 0, selectedOutput := none
                               messages := [] },
                             { id := "b", title := "TB", updatedAt := 3
                               backendSessionId := none, uploaded := []
                               combinedTextLen := 0, selectedOutput := none
                               messages := [] }]
                activeId := some "b" } : LedgerState).sessions,
        y.id ≠ "b" → y.updatedAt < 10)) ∧
    (threadRecents none
        (upsertActiveSession {} {} 10 "f1"
          { sessions := [{ id := "a", title := "TA", updatedAt := 5
                           backendSessionId := none, uploaded := []
                           combinedTextLen := 0, selectedOutput := none
                           messages := [] },
                         { id := "b", title := "TB", updatedAt := 3
                           backendSessionId := none, uploaded := []
                           combinedTextLen := 0, selectedOutput := none
                           messages := [] }]
            activeId := some "b" }).sessions).head?
      = some { id := (mergePatch {} 10
                  { id := "b", title := "TB", updatedAt := 3
                    backendSessionId := none, uploaded := []
                    combinedTextLen := 0, selectedOutput := none
                    messages := [] }).id
               title := (mergePatch {} 10
                  { id := "b", title := "TB", updatedAt := 3
                    backendSessionId := none, uploaded := []
                    combinedTextLen := 0, selectedOutput := none
                    messages := [] }).title
               sub := toRelativeSub none 10 } :=
  ⟨⟨by decide, by decide, by decide, by decide⟩,
    claim_C6_recents_sorted_stable_patched_front.2.2 {} {} 10 "f1" "b"
      { sessions := [{ id := "a", title := "TA", updatedAt := 5
                       backendSessionId := none, uploaded := []
                       combinedTextLen := 0, selectedOutput := none
                       messages := [] },
                     { id := "b", title := "TB", updatedAt := 3
                       backendSessionId := none, uploaded := []
                       combinedTextLen := 0, selectedOutput := none
                       messages := [] }]
        activeId := some "b" }
      { id := "b", title := "TB", updatedAt := 3
        backendSessionId := none, uploaded := []
        combinedTextLen := 0, selectedOutput := none, messages := [] }
      none (by decide) (by decide) (by decide) (by decide)⟩

theorem drop_length_sub_eq_reverse_take {α : Type} (l : List α) (n : Nat) :
    l.drop (l.length - n) = (l.reverse.take n).reverse := by
  by_cases h : n ≤ l.length
  · have h2 : (l.drop (l.length - n)).reverse
        = l.reverse.take (l.length - (l.length - n)) := List.reverse_drop
    rw [Nat.sub_sub_self h] at h2
    rw [← h2, List.reverse_reverse]
  · push_neg at h
    rw [Nat.sub_eq_zero_of_le (le_of_lt h), List.drop_zero,
      List.take_of_length_le (by simpa using le_of_lt h),
      List.reverse_reverse]

theorem messageContent_eq_spec (m : ChatMessage) :
    messageContent m = specMessageContent m := by
  rcases m with ⟨i, r, title, meta, text, loading⟩
  cases title <;> cases meta <;> rfl

theorem chatHistory_eq_spec (msgs : List ChatMessage) :
    chatHistory msgs
      = (((msgs.filter (fun m => m.loading == false)).reverse.take 12).reverse).map
          (fun m => { role := m.role, content := specMessageContent m }) := by
  unfold chatHistory lastTwelve
  have hfun : (fun m : ChatMessage => !m.loading)
      = (fun m : ChatMessage => m.loading == false) :=
    funext fun m => by cases m.loading <;> rfl
  rw [hfun, drop_length_sub_eq_reverse_take]
  exact List.map_congr_left fun m _ => by rw [messageContent_eq_spec]

/-- **C7 (amended).**  A chat send with a non-empty trimmed input, no
generation in flight, and a truthy backend session id posts exactly
`{session_id, message, history}`, where `history` is the last 12
non-pending transcript messages mapped to role plus the concatenation of
their present *non-empty* title/meta/text parts joined by newlines. -/
theorem claim_C7_chat_request_body (input sid : String)
    (msgs : List ChatMessage)
    (h1 : jsTrim input ≠ "") (h2 : sid ≠ "") :
    onSendChatRequest input false (some sid) msgs
      = some (specChatBody sid input msgs) := by
  have hbody : onSendChatRequest input false (some sid) msgs
      = some { session_id := sid, message := jsTrim input
               history := chatHistory msgs } := by
    simp [onSendChatRequest, jsTruthyS, h1, h2]
  rw [hbody, chatHistory_eq_spec]
  rfl

/-- Counterexample to C7 as stated: a present but empty `title` part is
dropped by `filter(Boolean)`, so the posted content is not the join of all
*present* parts. -/
theorem claim_C7_counterexample :
    (onSendChatRequest "yo" false (some "s1")
        [{ id := "m1", role := .user, title := some "", text := "hi" }]).map
      (fun b => b.history.map (fun h => h.content)) = some ["hi"] ∧
    claimMessageContent
      { id := "m1", role := .user, title := some "", text := "hi" }
      = "\nhi" ∧
    ("hi" : String) ≠ "\nhi" := by
  decide

/-- Witness for C7 at a concrete send. -/
theorem claim_C7_witness :
    (jsTrim "hello there" ≠ "" ∧ ("s1" : String) ≠ "") ∧
    onSendChatRequest "hello there" false (some "s1")
      [{ id := "m1", role := .user, title := some "Hello", text := "hi" }]
      = some (specChatBody "s1" "hello there"
          [{ id := "m1", role := .user, title := some "Hello", text := "hi" }]) :=
  ⟨⟨by decide, by decide⟩,
    claim_C7_chat_request_body "hello there" "s1"
      [{ id := "m1", role := .user, title := some "Hello", text := "hi" }]
      (by decide) (by decide)⟩

/-- **C10.**  `addFiles` is idempotent and filtered: zero-size files are
dropped, incoming files whose `(name, size, lastModified)` key already
occurs in the current list are dropped, the remainder is appended in
order, the existing entries and their order are untouched, and a second
application of the same batch adds nothing. -/
theorem claim_C10_addFiles_idempotent_filtered (gen1 gen2 : Nat → String)
    (files : List LocalFile) (incoming : List FileMeta) :
    addFiles gen2 (addFiles gen1 files incoming) incoming
      = addFiles gen1 files incoming ∧
    (addFiles gen1 files incoming).take files.length = files ∧
    (addFiles gen1 files incoming).map (fun x => x.file)
      = files.map (fun x => x.file)
        ++ incoming.filter (fun f => isAllowed f &&
            !((files.map (fun x => fileKey x.file)).contains (fileKey f))) := by
  have hmapfile : ∀ (gen : Nat → String) (next : List FileMeta),
      (next.enum.map (fun p =>
        ({ id := gen p.1, file := p.2 } : LocalFile))).map (fun x => x.file)
      = next := by
    intro gen next
    rw [List.map_map]
    have hcomp : ((fun x : LocalFile => x.file)
        ∘ (fun p : Nat × FileMeta => ({ id := gen p.1, file := p.2 } : LocalFile)))
        = Prod.snd := funext fun p => rfl
    rw [hcomp]
    exact List.enum_map_snd next
  have hthird : (addFiles gen1 files incoming).map (fun x => x.file)
      = files.map (fun x => x.file)
        ++ incoming.filter (fun f => isAllowed f &&
            !((files.map (fun x => fileKey x.file)).contains (fileKey f))) := by
    show (files ++ _).map (fun x => x.file) = _
    rw [List.map_append, hmapfile]
    congr 1
    rw [List.filter_filter]
    exact List.filter_congr fun f _ => Bool.and_comm _ _
  refine ⟨?_, ?_, hthird⟩
  · have hkeys : (addFiles gen1 files incoming).map (fun x => fileKey x.file)
        = ((addFiles gen1 files incoming).map (fun x => x.file)).map fileKey := by
      rw [List.map_map]
      rfl
    have hnil : (incoming.filter isAllowed).filter (fun f =>
        !(((addFiles gen1 files incoming).map
            (fun x => fileKey x.file)).contains (fileKey f))) = [] := by
      rw [List.filter_eq_nil_iff]
      intro f hf
      have hfA : isAllowed f = true := List.of_mem_filter hf
      have hfI : f ∈ incoming := List.mem_of_mem_filter hf
      suffices hmem : fileKey f
          ∈ (addFiles gen1 files incoming).map (fun x => fileKey x.file) by
        simp [hmem]
      rw [hkeys, hthird, List.map_append]
      by_cases hk : fileKey f ∈ (files.map (fun x => x.file)).map fileKey
      · exact List.mem_append_left _ hk
      · refine List.mem_append_right _ ?_
        refine List.mem_map.2 ⟨f, ?_, rfl⟩
        refine List.mem_filter.2 ⟨hfI, ?_⟩
        have hk' : fileKey f ∉ files.map (fun x => fileKey x.file) := by
          intro hmem'
          refine hk ?_
          rw [List.map_map]
          exact hmem'
        simp only [Bool.and_eq_true, hfA, true_and, Bool.not_eq_true']
        simp [hk']
    have hstep : addFiles gen2 (addFiles gen1 files incoming) incoming
        = addFiles gen1 files incoming
          ++ (((incoming.filter isAllowed).filter (fun f =>
              !(((addFiles gen1 files incoming).map
                  (fun x => fileKey x.file)).contains
                (fileKey f)))).enum.map (fun p =>
                ({ id := gen2 p.1, file := p.2 } : LocalFile))) := rfl
    rw [hstep, hnil]
    simp
  · exact List.take_left files _

end PrepareUp
